import Mathlib

/-!
Verification of the job scheduling and dispatch layer of the YouTube
scraper package (`src/scheduler.py`), as a shallow embedding in Lean 4.

The scheduler module is a configuration layer over a generic scheduling
library.  Everything that is code of `src/scheduler.py` (the schedule
parser, the per-job wrappers, the control-surface methods, the CLI) is
translated directly from the source.  The library pieces it configures
(job store insertion, due-job selection, pause and remove mutations,
the per-id instance bound and the misfire check) are not part of the
repository; each such definition carries a doc comment starting
`Modelled from the spec:` and follows the specification's description
of that mechanism.
-/

namespace Scheduler

/-- The four fetch operations a job can be bound to
(`_run_channel_scrape`, `_run_video_scrape`, `_run_playlist_scrape`,
`_run_search_scrape`). -/
inductive Operation
  | channelFetch
  | videoFetch
  | playlistFetch
  | searchFetch
  deriving DecidableEq, Repr

/-- An interval configuration dictionary as accepted by
`_parse_schedule` (the keyword arguments of the library's interval
trigger); absent keys are zero. -/
structure IntervalConfig where
  weeks : Nat := 0
  days : Nat := 0
  hours : Nat := 0
  minutes : Nat := 0
  seconds : Nat := 0
  deriving DecidableEq, Repr

/-- Total length of an interval configuration in seconds. -/
def IntervalConfig.durationSeconds (c : IntervalConfig) : Nat :=
  c.weeks * 604800 + c.days * 86400 + c.hours * 3600 + c.minutes * 60 + c.seconds

/-- A five-field cron configuration dictionary as accepted by
`_parse_schedule`. -/
structure CronConfig where
  minute : String := "*"
  hour : String := "*"
  day : String := "*"
  month : String := "*"
  day_of_week : String := "*"
  deriving DecidableEq, Repr

/-- A trigger returned by `_parse_schedule`: either an interval trigger
or a cron trigger. -/
inductive Trigger
  | interval (cfg : IntervalConfig)
  | cron (cfg : CronConfig)
  deriving DecidableEq, Repr

/-- `_parse_schedule` (scheduler.py lines 152-177): an `interval`
schedule with a missing configuration defaults to one day; a `cron`
schedule with a missing configuration defaults to midnight every day
(minute 0, hour 0, remaining fields wildcards); an unknown schedule
type falls back to the one-day interval. -/
def parse_schedule (schedule_type : String) (interval : Option IntervalConfig)
    (cron : Option CronConfig) : Trigger :=
  if schedule_type = "interval" then
    match interval with
    | none => Trigger.interval { days := 1 }
    | some i => Trigger.interval i
  else if schedule_type = "cron" then
    match cron with
    | none => Trigger.cron { minute := "0", hour := "0" }
    | some c => Trigger.cron c
  else
    Trigger.interval { days := 1 }

/-- Modelled from the spec: the scheduling library's interval-trigger
resolution, which is not part of this repository.  Section 4.1:
"Interval schedules: `nextFireTime = fromTime + duration(unit, value)`". -/
def intervalNextFireTime (c : IntervalConfig) (fromTime : Nat) : Nat :=
  fromTime + c.durationSeconds

/-- One of the five interval units accepted on the command line
(`--interval-unit`, scheduler.py lines 488-489). -/
inductive IntervalUnit
  | seconds
  | minutes
  | hours
  | days
  | weeks
  deriving DecidableEq, Repr

/-- The one-key interval dictionary `{args.interval_unit: args.interval_value}`
built by `main` (scheduler.py line 516). -/
def IntervalUnit.toConfig : IntervalUnit → Nat → IntervalConfig
  | .seconds, v => { seconds := v }
  | .minutes, v => { minutes := v }
  | .hours, v => { hours := v }
  | .days, v => { days := v }
  | .weeks, v => { weeks := v }

/-- Duration of a `(unit, value)` pair in seconds. -/
def unitDuration : IntervalUnit → Nat → Nat
  | .seconds, v => v
  | .minutes, v => v * 60
  | .hours, v => v * 3600
  | .days, v => v * 86400
  | .weeks, v => v * 604800

/-- A job record as held by the scheduling library's job store: the
fields `add_job` is called with in `schedule_channel_scrape` and its
three siblings (func, args, id, name, trigger), plus the job's next run
time, which is `none` exactly when the job is paused. -/
structure StoredJob where
  id : String
  operation : Operation
  target : String
  includeComments : Bool
  name : String
  trigger : Trigger
  nextRunTime : Option Nat
  deriving DecidableEq, Repr

/-- The job store: the sequence of jobs the library scheduler holds. -/
abbrev Store := List StoredJob

/-- A paused job is one whose next run time is cleared. -/
def StoredJob.isPaused (j : StoredJob) : Bool :=
  j.nextRunTime.isNone

/-- Modelled from the spec: the library's job-store insert used by
`add_job`, which is not part of this repository.  Section 4.2:
"`put(job)`: inserts or replaces a job keyed by `id`." -/
def add_job (store : Store) (job : StoredJob) : Store :=
  store.filter (fun j => !(j.id == job.id)) ++ [job]

/-- `schedule_channel_scrape` (scheduler.py lines 179-210): derive a
job id when none is given, parse the schedule into a trigger, and add
a job bound to the channel-scrape wrapper with args
`[channel_id, include_comments]` and name `"Channel Scrape: <id>"`.
The library's computation of the new job's first fire time is not part
of this repository, so it is taken as the parameter `firstFire`.
No validation of `channel_id` is performed. -/
def schedule_channel_scrape (firstFire : Trigger → Nat → Option Nat)
    (store : Store) (now : Nat) (channel_id : String) (include_comments : Bool)
    (schedule_type : String) (interval : Option IntervalConfig)
    (cron : Option CronConfig) (job_id : Option String) : String × Store :=
  let jid := match job_id with
    | some j => j
    | none => "channel_" ++ channel_id ++ "_" ++ toString now
  let trigger := parse_schedule schedule_type interval cron
  (jid, add_job store
    { id := jid, operation := Operation.channelFetch, target := channel_id,
      includeComments := include_comments, name := "Channel Scrape: " ++ channel_id,
      trigger := trigger, nextRunTime := firstFire trigger now })

/-- `schedule_video_scrape` (scheduler.py lines 212-243). -/
def schedule_video_scrape (firstFire : Trigger → Nat → Option Nat)
    (store : Store) (now : Nat) (video_id : String) (include_comments : Bool)
    (schedule_type : String) (interval : Option IntervalConfig)
    (cron : Option CronConfig) (job_id : Option String) : String × Store :=
  let jid := match job_id with
    | some j => j
    | none => "video_" ++ video_id ++ "_" ++ toString now
  let trigger := parse_schedule schedule_type interval cron
  (jid, add_job store
    { id := jid, operation := Operation.videoFetch, target := video_id,
      includeComments := include_comments, name := "Video Scrape: " ++ video_id,
      trigger := trigger, nextRunTime := firstFire trigger now })

/-- `schedule_playlist_scrape` (scheduler.py lines 245-276). -/
def schedule_playlist_scrape (firstFire : Trigger → Nat → Option Nat)
    (store : Store) (now : Nat) (playlist_id : String) (include_comments : Bool)
    (schedule_type : String) (interval : Option IntervalConfig)
    (cron : Option CronConfig) (job_id : Option String) : String × Store :=
  let jid := match job_id with
    | some j => j
    | none => "playlist_" ++ playlist_id ++ "_" ++ toString now
  let trigger := parse_schedule schedule_type interval cron
  (jid, add_job store
    { id := jid, operation := Operation.playlistFetch, target := playlist_id,
      includeComments := include_comments, name := "Playlist Scrape: " ++ playlist_id,
      trigger := trigger, nextRunTime := firstFire trigger now })

/-- `schedule_search_scrape` (scheduler.py lines 278-309); spaces in the
query are replaced by underscores in the derived id. -/
def schedule_search_scrape (firstFire : Trigger → Nat → Option Nat)
    (store : Store) (now : Nat) (query : String) (include_comments : Bool)
    (schedule_type : String) (interval : Option IntervalConfig)
    (cron : Option CronConfig) (job_id : Option String) : String × Store :=
  let jid := match job_id with
    | some j => j
    | none => "search_" ++ (query.replace " " "_") ++ "_" ++ toString now
  let trigger := parse_schedule schedule_type interval cron
  (jid, add_job store
    { id := jid, operation := Operation.searchFetch, target := query,
      includeComments := include_comments, name := "Search Scrape: " ++ query,
      trigger := trigger, nextRunTime := firstFire trigger now })

/-- The concrete first-fire computation used when a closed instance is
needed.  Modelled from the spec for the interval case (section 4.1:
`fromTime + duration`); cron resolution is not needed by any property
in this file and is left unmodelled. -/
def intervalOnlyFirstFire : Trigger → Nat → Option Nat
  | Trigger.interval c, now => some (intervalNextFireTime c now)
  | Trigger.cron _, _ => none

/-- The job defaults configured by `_setup_scheduler`
(scheduler.py lines 78-82). -/
structure JobDefaults where
  coalesce : Bool
  max_instances : Nat
  misfire_grace_time : Nat
  deriving DecidableEq, Repr

/-- `_setup_scheduler` sets `coalesce: False`, `max_instances: 3`,
`misfire_grace_time: 3600` (one hour). -/
def setup_job_defaults : JobDefaults :=
  { coalesce := false, max_instances := 3, misfire_grace_time := 3600 }

/-- Outcome of attempting to dispatch one firing of a job. -/
inductive SubmitDecision
  | submitted
  | skippedMaxInstances
  deriving DecidableEq, Repr

/-- Modelled from the spec: the library's per-id concurrency check,
which is not part of this repository.  Section 4.3: a fire attempted
while previous firings of the same id are still running is dispatched
only while the number of in-flight instances of that id is below the
job's configured instance bound; otherwise it is skipped and logged,
not queued. -/
def submit_decision (running max_instances : Nat) : SubmitDecision :=
  if running < max_instances then SubmitDecision.submitted
  else SubmitDecision.skippedMaxInstances

/-- Outcome of the lateness check on one due firing. -/
inductive FireOutcome
  | run
  | skippedAndRescheduled
  deriving DecidableEq, Repr

/-- Modelled from the spec: the library's misfire check, which is not
part of this repository.  Section 4.3: "if `now - job.nextFireTime`
exceeds a configured grace period, the firing is skipped and
rescheduled to the next future occurrence rather than run late". -/
def misfire_check (now nextFire grace : Nat) : FireOutcome :=
  if now - nextFire > grace then FireOutcome.skippedAndRescheduled
  else FireOutcome.run

/-- Modelled from the spec: the library job store's due-job selection,
which is not part of this repository.  Section 4.2: "`listDue(asOf)`:
all Active jobs with `nextFireTime <= asOf`"; a paused job (next run
time cleared) is never selected. -/
def get_due_jobs (store : Store) (asOf : Nat) : Store :=
  store.filter fun j =>
    match j.nextRunTime with
    | some t => t ≤ asOf
    | none => false

/-- Modelled from the spec: the library's remove-job mutation, which is
not part of this repository; it deletes the job keyed by the id and
fails (raises a lookup error, here `none`) when the id is absent. -/
def lib_remove_job (store : Store) (job_id : String) : Option Store :=
  if store.any (fun j => j.id == job_id) then
    some (store.filter (fun j => !(j.id == job_id)))
  else none

/-- Modelled from the spec: the library's pause-job mutation, which is
not part of this repository.  Section 4.4: "sets state Paused,
`nextFireTime = null`"; fails when the id is absent. -/
def lib_pause_job (store : Store) (job_id : String) : Option Store :=
  if store.any (fun j => j.id == job_id) then
    some (store.map fun j =>
      if j.id == job_id then { j with nextRunTime := none } else j)
  else none

/-- Modelled from the spec: the library's resume-job mutation, which is
not part of this repository.  Section 4.4: "sets state Active,
recomputes `nextFireTime = resolve(schedule, now)`"; fails when the id
is absent. -/
def lib_resume_job (firstFire : Trigger → Nat → Option Nat) (now : Nat)
    (store : Store) (job_id : String) : Option Store :=
  if store.any (fun j => j.id == job_id) then
    some (store.map fun j =>
      if j.id == job_id then { j with nextRunTime := firstFire j.trigger now } else j)
  else none

/-- `remove_job` (scheduler.py lines 390-406): delegate to the library
and convert any failure into a `false` return, leaving the store as it
was; no exception escapes. -/
def remove_job (store : Store) (job_id : String) : Bool × Store :=
  match lib_remove_job store job_id with
  | some s => (true, s)
  | none => (false, store)

/-- `pause_job` (scheduler.py lines 408-424): delegate to the library
and convert any failure into a `false` return, leaving the store as it
was; no exception escapes. -/
def pause_job (store : Store) (job_id : String) : Bool × Store :=
  match lib_pause_job store job_id with
  | some s => (true, s)
  | none => (false, store)

/-- `resume_job` (scheduler.py lines 426-442): delegate to the library
and convert any failure into a `false` return, leaving the store as it
was; no exception escapes. -/
def resume_job (firstFire : Trigger → Nat → Option Nat) (now : Nat)
    (store : Store) (job_id : String) : Bool × Store :=
  match lib_resume_job firstFire now store job_id with
  | some s => (true, s)
  | none => (false, store)

/-- A log record emitted through `logger.info` / `logger.error`. -/
inductive LogEntry
  | info (msg : String)
  | error (msg : String)
  deriving DecidableEq, Repr

/-- The Python `try ... except Exception as e` around a wrapper body:
a raising body is converted into the handler's log record; nothing
propagates. -/
def try_except_log (body : Except String (List LogEntry))
    (handler : String → LogEntry) : Except String (List LogEntry) :=
  match body with
  | Except.ok logs => Except.ok logs
  | Except.error e => Except.ok [handler e]

/-- `_run_channel_scrape` (scheduler.py lines 311-324): log the start,
call `scraper.run_channel_scrape` inside a `try`, log success with the
result or log the error with the channel id; the fetch outcome is the
`scrape` argument (`Except.error` standing for a raised exception). -/
def run_channel_scrape_job (scrape : String → Bool → Except String String)
    (channel_id : String) (include_comments : Bool) : Except String (List LogEntry) :=
  let pre := LogEntry.info ("Running channel scrape for " ++ channel_id)
  match try_except_log
      ((scrape channel_id include_comments).map fun r =>
        [LogEntry.info ("Channel scrape completed: " ++ r)])
      (fun e => LogEntry.error ("Error in channel scrape for " ++ channel_id ++ ": " ++ e)) with
  | Except.ok logs => Except.ok (pre :: logs)
  | Except.error e => Except.error e

/-- `_run_video_scrape` (scheduler.py lines 326-339). -/
def run_video_scrape_job (scrape : String → Bool → Except String String)
    (video_id : String) (include_comments : Bool) : Except String (List LogEntry) :=
  let pre := LogEntry.info ("Running video scrape for " ++ video_id)
  match try_except_log
      ((scrape video_id include_comments).map fun r =>
        [LogEntry.info ("Video scrape completed: " ++ r)])
      (fun e => LogEntry.error ("Error in video scrape for " ++ video_id ++ ": " ++ e)) with
  | Except.ok logs => Except.ok (pre :: logs)
  | Except.error e => Except.error e

/-- `_run_playlist_scrape` (scheduler.py lines 341-354). -/
def run_playlist_scrape_job (scrape : String → Bool → Except String String)
    (playlist_id : String) (include_comments : Bool) : Except String (List LogEntry) :=
  let pre := LogEntry.info ("Running playlist scrape for " ++ playlist_id)
  match try_except_log
      ((scrape playlist_id include_comments).map fun r =>
        [LogEntry.info ("Playlist scrape completed: " ++ r)])
      (fun e => LogEntry.error ("Error in playlist scrape for " ++ playlist_id ++ ": " ++ e)) with
  | Except.ok logs => Except.ok (pre :: logs)
  | Except.error e => Except.error e

/-- `_run_search_scrape` (scheduler.py lines 356-369). -/
def run_search_scrape_job (scrape : String → Bool → Except String String)
    (query : String) (include_comments : Bool) : Except String (List LogEntry) :=
  let pre := LogEntry.info ("Running search scrape for '" ++ query ++ "'")
  match try_except_log
      ((scrape query include_comments).map fun r =>
        [LogEntry.info ("Search scrape completed: " ++ r)])
      (fun e => LogEntry.error ("Error in search scrape for '" ++ query ++ "': " ++ e)) with
  | Except.ok logs => Except.ok (pre :: logs)
  | Except.error e => Except.error e

/-- Observable execution events of a control-surface call: a fetch
invocation that ran to completion on the calling thread, or a handoff
of a job to the library's worker pool. -/
inductive Event
  | fetchCompleted (op : Operation) (target : String) (includeComments : Bool)
  | executorSubmit (job_id : String)
  deriving DecidableEq, Repr

/-- `run_job_now` (scheduler.py lines 444-471): look the job up in the
store; if present, call the stored job function directly with its
stored arguments (`job.func(*job.args, **job.kwargs)`) — the call runs
to completion before the method returns `true` — and return `true`
without touching the store; if absent, log and return `false`.  The
returned event list is the trace of what executed, in order, before
the boolean was returned. -/
def run_job_now (store : Store) (job_id : String) : Bool × List Event × Store :=
  match store.find? (fun j => j.id == job_id) with
  | some j => (true, [Event.fetchCompleted j.operation j.target j.includeComments], store)
  | none => (false, [], store)

/-- The `run` action of `main` (scheduler.py lines 586-601): call
`run_job_now` and print a success or failure line once it has
returned. -/
def cli_run (store : Store) (job_id : String) : List Event × String :=
  match run_job_now store job_id with
  | (true, trace, _) => (trace, "Job " ++ job_id ++ " triggered successfully")
  | (false, trace, _) => (trace, "Failed to trigger job " ++ job_id)

/-- One entry of the list returned by `list_jobs`
(scheduler.py lines 378-386): the dictionary keys are `id`, `name`,
`next_run_time` and `trigger`.  The source formats `next_run_time` as
a date string for display; the timestamp itself is kept here. -/
structure JobInfo where
  id : String
  name : String
  next_run_time : Option Nat
  trigger : String
  deriving DecidableEq, Repr

/-- Modelled from the spec: the library trigger's string rendering
(`str(job.trigger)`), which is not part of this repository: a
description of the schedule rule. -/
def Trigger.describe : Trigger → String
  | Trigger.interval c => "interval[" ++ toString c.durationSeconds ++ " seconds]"
  | Trigger.cron c =>
      "cron[" ++ c.minute ++ " " ++ c.hour ++ " " ++ c.day ++ " "
        ++ c.month ++ " " ++ c.day_of_week ++ "]"

/-- `list_jobs` (scheduler.py lines 371-388): one dictionary per
scheduled job, holding the job's id, its name, its next run time and
the rendered trigger. -/
def list_jobs (store : Store) : List JobInfo :=
  store.map fun j =>
    { id := j.id, name := j.name, next_run_time := j.nextRunTime,
      trigger := j.trigger.describe }

/-! Sample jobs and stores used to instantiate theorems with
hypotheses at concrete inputs. -/

/-- A sample active channel job. -/
def jobA : StoredJob :=
  { id := "jA", operation := Operation.channelFetch, target := "UCaaa",
    includeComments := false, name := "Channel Scrape: UCaaa",
    trigger := Trigger.interval { hours := 1 }, nextRunTime := some 10 }

/-- A sample active video job. -/
def jobB : StoredJob :=
  { id := "jB", operation := Operation.videoFetch, target := "vid01",
    includeComments := true, name := "Video Scrape: vid01",
    trigger := Trigger.interval { days := 1 }, nextRunTime := some 20 }

/-- A sample two-job store. -/
def storeAB : Store := [jobA, jobB]

/-- The store obtained by pausing `jobA` in `storeAB`. -/
def storeABPausedA : Store := (pause_job storeAB "jA").2

/-- A sample search job used for the force-run theorems. -/
def jobC : StoredJob :=
  { id := "jC", operation := Operation.searchFetch, target := "lean theorem",
    includeComments := false, name := "Search Scrape: lean theorem",
    trigger := Trigger.interval { minutes := 30 }, nextRunTime := some 77 }

/-- A sample one-job store for the force-run theorems. -/
def storeC : Store := [jobC]

/-- A sample playlist job used for the list-jobs theorems. -/
def jobD : StoredJob :=
  { id := "job1", operation := Operation.playlistFetch, target := "PL123",
    includeComments := false, name := "Playlist Scrape: PL123",
    trigger := Trigger.interval { hours := 1 }, nextRunTime := some 50 }

end Scheduler

namespace Scheduler

/-- C1: for every interval schedule `(unit, value)` with unit among
seconds, minutes, hours, days, weeks and every reference time,
`_parse_schedule` with schedule type `interval` yields an interval
trigger whose next fire time is exactly `fromTime + duration(unit,
value)`, and a missing interval configuration yields the one-day
default (86400 seconds). -/
theorem interval_schedule_resolves_exactly (u : IntervalUnit) (v fromTime : Nat) :
    (∃ c, parse_schedule "interval" (some (u.toConfig v)) none = Trigger.interval c ∧
      intervalNextFireTime c fromTime = fromTime + unitDuration u v) ∧
    ∃ c, parse_schedule "interval" none none = Trigger.interval c ∧
      intervalNextFireTime c fromTime = fromTime + 86400 := by
  constructor
  · refine ⟨u.toConfig v, by simp [parse_schedule], ?_⟩
    cases u <;>
      simp [IntervalUnit.toConfig, intervalNextFireTime,
        IntervalConfig.durationSeconds, unitDuration]
  · exact ⟨{ days := 1 }, by simp [parse_schedule],
      by simp [intervalNextFireTime, IntervalConfig.durationSeconds]⟩

/-- C2: whatever the bound fetch operation does — return a result or
raise — each of the four per-job wrappers returns normally, so a fetch
failure never propagates out of a firing. -/
theorem fetch_failure_never_propagates
    (scrape : String → Bool → Except String String)
    (cid vid pid q : String) (cic vic pic sic : Bool) :
    (run_channel_scrape_job scrape cid cic).isOk = true ∧
    (run_video_scrape_job scrape vid vic).isOk = true ∧
    (run_playlist_scrape_job scrape pid pic).isOk = true ∧
    (run_search_scrape_job scrape q sic).isOk = true := by
  refine ⟨?_, ?_, ?_, ?_⟩
  · cases h : scrape cid cic <;>
      simp [run_channel_scrape_job, try_except_log, h, Except.map, Except.isOk, Except.toBool]
  · cases h : scrape vid vic <;>
      simp [run_video_scrape_job, try_except_log, h, Except.map, Except.isOk, Except.toBool]
  · cases h : scrape pid pic <;>
      simp [run_playlist_scrape_job, try_except_log, h, Except.map, Except.isOk, Except.toBool]
  · cases h : scrape q sic <;>
      simp [run_search_scrape_job, try_except_log, h, Except.map, Except.isOk, Except.toBool]

/-- C4 counterexample: the configured per-id bound is `max_instances = 3`,
not 1: a duplicate firing attempted while one firing of the same id is
still running is submitted, not skipped. -/
theorem duplicate_fire_with_one_in_flight_is_submitted :
    setup_job_defaults.max_instances = 3 ∧
    submit_decision 1 setup_job_defaults.max_instances = SubmitDecision.submitted := by
  decide

/-- C4 amended: at most 3 firings of the same job id are in flight at a
time: a fire attempted while fewer than 3 are running is dispatched,
and one attempted while 3 are running is skipped and logged, not
queued. -/
theorem per_id_instance_bound_is_three (running : Nat) :
    (submit_decision running setup_job_defaults.max_instances = SubmitDecision.submitted
      ↔ running < 3) ∧
    (submit_decision running setup_job_defaults.max_instances = SubmitDecision.skippedMaxInstances
      ↔ 3 ≤ running) := by
  unfold submit_decision setup_job_defaults
  by_cases h : running < 3
  · simp [h]
  · simp [h]
    omega

/-- C5: the configured misfire grace period is 3600 seconds (one
hour), and a due firing whose lateness `now - nextFireTime` exceeds it
is skipped and rescheduled forward, never executed late. -/
theorem misfire_beyond_grace_is_skipped (now nextFire : Nat)
    (h : now - nextFire > setup_job_defaults.misfire_grace_time) :
    setup_job_defaults.misfire_grace_time = 3600 ∧
    misfire_check now nextFire setup_job_defaults.misfire_grace_time =
      FireOutcome.skippedAndRescheduled :=
  ⟨rfl, by simp [misfire_check, h]⟩

/-- Witness for C5: a job two hours late against the one-hour grace is
skipped. -/
theorem misfire_beyond_grace_is_skipped_witness :
    setup_job_defaults.misfire_grace_time = 3600 ∧
    misfire_check 7200 0 setup_job_defaults.misfire_grace_time =
      FireOutcome.skippedAndRescheduled :=
  misfire_beyond_grace_is_skipped 7200 0 (by decide)

/-- A job just scheduled is in the store afterwards. -/
theorem mem_add_job (store : Store) (job : StoredJob) : job ∈ add_job store job := by
  simp [add_job]

/-- C3 counterexample: scheduling a channel scrape with an empty
channel id does not fail — it returns normally and the job, with the
empty target, is in the store. -/
theorem empty_target_job_enters_store :
    schedule_channel_scrape intervalOnlyFirstFire [] 0 "" false "interval"
        (some { hours := 1 }) none (some "j1") =
      ("j1",
        [{ id := "j1", operation := Operation.channelFetch, target := "",
           includeComments := false, name := "Channel Scrape: ",
           trigger := Trigger.interval { hours := 1 }, nextRunTime := some 3600 }]) ∧
    (schedule_channel_scrape intervalOnlyFirstFire [] 0 "" false "interval"
        (some { hours := 1 }) none (some "j1")).2 ≠ [] := by
  decide

/-- C3 amended: the four add-job operations perform no validation of
their target at all: for every target, including the empty one, the
call returns normally and a job carrying that target, under the
returned id, enters the store. -/
theorem add_job_performs_no_target_validation (firstFire : Trigger → Nat → Option Nat)
    (store : Store) (now : Nat) (target : String) (ic : Bool) (st : String)
    (itv : Option IntervalConfig) (cr : Option CronConfig) (jid : Option String) :
    (∃ j ∈ (schedule_channel_scrape firstFire store now target ic st itv cr jid).2,
      j.id = (schedule_channel_scrape firstFire store now target ic st itv cr jid).1 ∧
      j.target = target) ∧
    (∃ j ∈ (schedule_video_scrape firstFire store now target ic st itv cr jid).2,
      j.id = (schedule_video_scrape firstFire store now target ic st itv cr jid).1 ∧
      j.target = target) ∧
    (∃ j ∈ (schedule_playlist_scrape firstFire store now target ic st itv cr jid).2,
      j.id = (schedule_playlist_scrape firstFire store now target ic st itv cr jid).1 ∧
      j.target = target) ∧
    ∃ j ∈ (schedule_search_scrape firstFire store now target ic st itv cr jid).2,
      j.id = (schedule_search_scrape firstFire store now target ic st itv cr jid).1 ∧
      j.target = target := by
  exact ⟨⟨_, mem_add_job store _, rfl, rfl⟩, ⟨_, mem_add_job store _, rfl, rfl⟩,
    ⟨_, mem_add_job store _, rfl, rfl⟩, ⟨_, mem_add_job store _, rfl, rfl⟩⟩

/-- C6: `listDue` only ever returns unpaused jobs whose next run time
is at most `asOf`, and once `pause_job` has succeeded for an id, no
job with that id appears in any subsequent `listDue` result. -/
theorem paused_jobs_never_due (store : Store) (asOf : Nat) (job_id : String)
    (j : StoredJob) :
    (j ∈ get_due_jobs store asOf →
      j.isPaused = false ∧ ∃ t, j.nextRunTime = some t ∧ t ≤ asOf) ∧
    ∀ s2, pause_job store job_id = (true, s2) →
      j ∈ get_due_jobs s2 asOf → ¬ j.id = job_id := by
  constructor
  · intro hj
    rw [get_due_jobs, List.mem_filter] at hj
    obtain ⟨-, hpred⟩ := hj
    cases hnext : j.nextRunTime with
    | none => rw [hnext] at hpred; simp at hpred
    | some t =>
        rw [hnext] at hpred
        simp only [decide_eq_true_eq] at hpred
        exact ⟨by simp [StoredJob.isPaused, hnext], t, rfl, hpred⟩
  · intro s2 hpause hj hid
    rw [pause_job] at hpause
    cases hlib : lib_pause_job store job_id with
    | none => rw [hlib] at hpause; simp at hpause
    | some s =>
        rw [hlib] at hpause
        simp only [Prod.mk.injEq, true_and] at hpause
        subst hpause
        rw [lib_pause_job] at hlib
        by_cases hany : store.any (fun x => x.id == job_id) = true
        · rw [if_pos hany] at hlib
          obtain rfl : _ = s := Option.some.inj hlib
          rw [get_due_jobs, List.mem_filter] at hj
          obtain ⟨hmem, hpred⟩ := hj
          rw [List.mem_map] at hmem
          obtain ⟨j0, -, hj0⟩ := hmem
          by_cases hm : j0.id == job_id
          · rw [if_pos hm] at hj0
            rw [← hj0] at hpred
            simp at hpred
          · rw [if_neg hm] at hj0
            rw [← hj0] at hid
            exact hm (by simp [hid])
        · rw [if_neg hany] at hlib
          exact Option.noConfusion hlib

/-- Witness for C6: after pausing `jobA`, the still-due `jobB` is
unpaused and is not the paused id. -/
theorem paused_jobs_never_due_witness :
    jobB.isPaused = false ∧ ¬ jobB.id = "jA" :=
  ⟨((paused_jobs_never_due storeAB 100 "jA" jobB).1 (by decide)).1,
   (paused_jobs_never_due storeAB 100 "jA" jobB).2 storeABPausedA (by decide) (by decide)⟩

/-- C7: for an existing job id, `run_job_now` invokes the bound fetch
operation with the job's stored target and comment flag, returns
`true`, and leaves the store — every stored field of every job,
including the job's next run time — unchanged. -/
theorem run_now_uses_stored_args_and_preserves_store (store : Store) (job_id : String)
    (j : StoredJob) (h : store.find? (fun x => x.id == job_id) = some j) :
    run_job_now store job_id =
      (true, [Event.fetchCompleted j.operation j.target j.includeComments], store) := by
  simp [run_job_now, h]

/-- Witness for C7: force-running the sample search job. -/
theorem run_now_uses_stored_args_and_preserves_store_witness :
    run_job_now storeC "jC" =
      (true, [Event.fetchCompleted Operation.searchFetch "lean theorem" false], storeC) :=
  run_now_uses_stored_args_and_preserves_store storeC "jC" jobC (by decide)

/-- C8: when the id is absent from the store, `remove_job`,
`pause_job` and `resume_job` all return `false` — no exception escapes
the control surface, which is total — and leave the store unchanged. -/
theorem absent_id_control_calls_return_false (store : Store) (job_id : String)
    (firstFire : Trigger → Nat → Option Nat) (now : Nat)
    (h : store.any (fun x => x.id == job_id) = false) :
    remove_job store job_id = (false, store) ∧
    pause_job store job_id = (false, store) ∧
    resume_job firstFire now store job_id = (false, store) := by
  refine ⟨?_, ?_, ?_⟩ <;>
    simp [remove_job, pause_job, resume_job,
      lib_remove_job, lib_pause_job, lib_resume_job, h]

/-- Witness for C8: the id `zz` is absent from the sample store. -/
theorem absent_id_control_calls_return_false_witness :
    remove_job storeC "zz" = (false, storeC) ∧
    pause_job storeC "zz" = (false, storeC) ∧
    resume_job intervalOnlyFirstFire 0 storeC "zz" = (false, storeC) :=
  absent_id_control_calls_return_false storeC "zz" intervalOnlyFirstFire 0 (by decide)

/-- C9 counterexample: a `list_jobs` entry carries the fields id,
name, next run time and trigger; the job's target (here `PL123`) is
not one of them — it only occurs embedded in the display name — so an
entry does not contain the target (nor the operation) as a field. -/
theorem list_jobs_entry_has_no_target_field :
    jobD.target = "PL123" ∧
    list_jobs [jobD] =
      [{ id := "job1", name := "Playlist Scrape: PL123", next_run_time := some 50,
         trigger := "interval[3600 seconds]" }] ∧
    ¬ ("job1" = "PL123" ∨ "Playlist Scrape: PL123" = "PL123" ∨
       "interval[3600 seconds]" = "PL123") := by
  decide

/-- C9 amended: `list_jobs` returns exactly one entry per stored job;
each entry carries the job's id, its display name (the operation label
concatenated with the target), its next fire time, and the rendered
schedule — but not the operation or the target as separate fields. -/
theorem list_jobs_one_entry_per_job (store : Store) :
    (list_jobs store).length = store.length ∧
    (∀ j ∈ store,
      ({ id := j.id, name := j.name, next_run_time := j.nextRunTime,
         trigger := j.trigger.describe } : JobInfo) ∈ list_jobs store) ∧
    ∀ e ∈ list_jobs store, ∃ j ∈ store,
      e = { id := j.id, name := j.name, next_run_time := j.nextRunTime,
            trigger := j.trigger.describe } := by
  refine ⟨by simp [list_jobs], ?_, ?_⟩
  · intro j hj
    rw [list_jobs, List.mem_map]
    exact ⟨j, hj, rfl⟩
  · intro e he
    rw [list_jobs, List.mem_map] at he
    obtain ⟨j, hj, hje⟩ := he
    exact ⟨j, hj, hje.symm⟩

/-- Witness for C9: the singleton store's entry. -/
theorem list_jobs_one_entry_per_job_witness :
    ({ id := "job1", name := "Playlist Scrape: PL123", next_run_time := some 50,
       trigger := "interval[3600 seconds]" } : JobInfo) ∈ list_jobs [jobD] ∧
    (list_jobs [jobD]).length = 1 :=
  ⟨(list_jobs_one_entry_per_job [jobD]).2.1 jobD (by decide),
   (list_jobs_one_entry_per_job [jobD]).1⟩

/-- C10: for an existing job id, `run_job_now` runs the stored job
function to completion on the calling thread — its trace is exactly
the completed fetch invocation, with no handoff to the worker pool —
and only then returns `true`; the CLI `run` action therefore prints
its success line only after the fetch has completed. -/
theorem run_now_executes_synchronously (store : Store) (job_id : String)
    (j : StoredJob) (h : store.find? (fun x => x.id == job_id) = some j) :
    (run_job_now store job_id).1 = true ∧
    (run_job_now store job_id).2.1 =
      [Event.fetchCompleted j.operation j.target j.includeComments] ∧
    (∀ i, Event.executorSubmit i ∉ (run_job_now store job_id).2.1) ∧
    cli_run store job_id =
      ([Event.fetchCompleted j.operation j.target j.includeComments],
        "Job " ++ job_id ++ " triggered successfully") := by
  refine ⟨?_, ?_, ?_, ?_⟩ <;> simp [run_job_now, cli_run, h]

/-- Witness for C10: force-running the sample search job completes the
fetch and then reports success. -/
theorem run_now_executes_synchronously_witness :
    (run_job_now storeC "jC").1 = true ∧
    cli_run storeC "jC" =
      ([Event.fetchCompleted Operation.searchFetch "lean theorem" false],
        "Job jC triggered successfully") :=
  ⟨(run_now_executes_synchronously storeC "jC" jobC (by decide)).1,
   (run_now_executes_synchronously storeC "jC" jobC (by decide)).2.2.2⟩

end Scheduler
